import Mathlib

/-!
# Shallow embedding of the `athanor_boards` bulletin-board engine

This file embeds the data model (`models.py`), the operation handlers
(`managers.py`) and the access-resolution hooks (`boards.py`) of the
`athanor_boards` package as executable Lean definitions, and proves the
specification claims about them.

Conventions of the embedding:
* Django rows become records; the database becomes a `DBState` of lists.
* Timestamps are abstract `Nat` instants (`utcnow()` is passed in as `now`).
* A handler that raises `OperationError` becomes `Except (Status × String)`;
  raising before/inside the atomic transaction leaves the state unchanged,
  which the `Except` embedding captures by only returning a new state on
  success.
* The lock-expression evaluator and the `AthanorAccess.access` combinator
  live outside this repository; operations therefore take the resolved
  access checks as function parameters (`board.access(actor, cap)` becomes
  `access board cap`), and §4.2's structured resolution is modelled
  separately for the access-inheritance claim.
-/

set_option linter.unusedVariables false

deriving instance DecidableEq for Except

/-- HTTP-flavoured status codes carried on an `Operation`
(`operation.st.HTTP_200_OK`, `HTTP_201_CREATED`, `HTTP_400_BAD_REQUEST`,
`HTTP_401_UNAUTHORIZED`, `HTTP_404_NOT_FOUND`, `HTTP_409_CONFLICT`). -/
inductive Status where
  | ok
  | created
  | badRequest
  | unauthorized
  | notFound
  | conflict
deriving Repr, DecidableEq

/-- An operation failure: the status code set on the request plus the
human-readable message of the raised `operation.ex(...)`. -/
abbrev OpError := Status × String

/-- The characters stripped by Python's `str.strip()` (the ASCII whitespace
fragment; the engine only strips ASCII input). -/
def isPySpace (c : Char) : Bool :=
  c = ' ' || c = '\t' || c = '\n' || c = '\r' || c = Char.ofNat 11 || c = Char.ofNat 12

/-- Python `str.strip()` on a character list. -/
def pyStripList (l : List Char) : List Char :=
  ((l.dropWhile isPySpace).reverse.dropWhile isPySpace).reverse

/-- Python `str.strip()`. -/
def pyStrip (s : String) : String := String.mk (pyStripList s.data)

/-- Numeric value of a decimal digit character. -/
def digitVal (c : Char) : Nat := c.toNat - '0'.toNat

/-- Python `int()` on a plain run of decimal digits; `none` models the
`ValueError` raised on anything else.  (Python's `int()` also tolerates
surrounding whitespace, a sign and underscores; those forms lie outside the
id grammars exercised by the engine and are treated as invalid here.) -/
def parseDigits (l : List Char) : Option Nat :=
  if l ≠ [] && l.all Char.isDigit then
    some (l.foldl (fun a c => a * 10 + digitVal c) 0)
  else none

/-- Python `int()` producing an integer: an optional leading minus sign
followed by digits (see `parseDigits` for the fragment modelled). -/
def pyInt (s : String) : Option Int :=
  match s.data with
  | [] => none
  | c :: rest =>
    if c = '-' then (parseDigits rest).map (fun n => -(n : Int))
    else (parseDigits (c :: rest)).map (fun n => (n : Int))

/-- Python `str.lower()` on one character (the ASCII fragment the engine
compares; case-insensitive `iexact` lookups are modelled the same way). -/
def pyLowerChar (c : Char) : Char :=
  if 'A' ≤ c && c ≤ 'Z' then Char.ofNat (c.toNat + 32) else c

/-- Python `str.lower()`. -/
def pyLower (s : String) : String := String.mk (s.data.map pyLowerChar)

/-- Python `str.isnumeric()` on the ASCII fragment: nonempty and all
decimal digits. -/
def pyIsNumeric (s : String) : Bool :=
  !s.data.isEmpty && s.data.all Char.isDigit

/-- The decimal digit character for `d < 10` (`'0'` + d). -/
def digitChar10 (d : Nat) : Char := Char.ofNat (48 + d)

/-- Fuel-driven decimal rendering helper: most-significant digit first,
no leading zeros, empty for `0`.  Structural recursion on the fuel keeps
the definition kernel-reducible. -/
def natCharsAux : Nat → Nat → List Char
  | 0, _ => []
  | fuel + 1, n =>
    if n = 0 then []
    else natCharsAux fuel (n / 10) ++ [digitChar10 (n % 10)]

/-- Python `str()` of a nonnegative integer: its decimal digits,
most significant first, no leading zeros. -/
def natChars (n : Nat) : List Char :=
  if n = 0 then ['0'] else natCharsAux (n + 1) n

/-- Python `str()` of a nonnegative integer, as a `String`. -/
def natStr (n : Nat) : String := String.mk (natChars n)

/-- Python's `input.split(".", 1)` combined with the `"." in input` test:
`some (before, after)` when the string contains a dot (split at the first
one), `none` when it does not. -/
def splitAtFirstDot : List Char → Option (List Char × List Char)
  | [] => none
  | c :: rest =>
    if c = '.' then some ([], rest)
    else (splitAtFirstDot rest).map (fun p => (c :: p.1, p.2))

/-! ## Data model (`models.py`) -/

/-- A `BoardCollectionDB` row. -/
structure Collection where
  id : Nat
  key : String
  abbreviation : String
  deleted : Bool
deriving Repr, DecidableEq

/-- A `BoardDB` row.  The `ic` and `disguise` options live in the external
`OptionHandler`; they are carried here as the two booleans the post
operations read (`board.options.get("ic")`, `board.options.get("disguise")`). -/
structure Board where
  id : Nat
  collectionId : Nat
  key : String
  order : Nat
  nextPostNumber : Nat
  lastActivity : Nat
  deleted : Bool
  icOption : Bool
  disguiseOption : Bool
deriving Repr, DecidableEq

/-- A `Post` row.  `readBy` is the `read` many-to-many set of account ids. -/
structure Post where
  id : Nat
  boardId : Nat
  userId : Nat
  characterId : Option Nat
  disguise : Option String
  number : Nat
  replyNumber : Nat
  subject : String
  body : String
  dateCreated : Nat
  dateModified : Nat
  deleted : Bool
  readBy : List Nat
deriving Repr, DecidableEq

/-- The database: every row of the three tables.  `nextPostRowId` models
the autoincrementing primary key of `Post`. -/
structure DBState where
  collections : List Collection
  boards : List Board
  posts : List Post
  nextPostRowId : Nat
deriving Repr, DecidableEq

/-- The collection a board belongs to (`board.collection` foreign key). -/
def DBState.collectionOf (st : DBState) (b : Board) : Option Collection :=
  st.collections.find? (fun c => c.id = b.collectionId)

/-- `DefaultBoard.board_label`: collection abbreviation concatenated with
the board's order (`f"{self.db_collection.db_abbreviation}{self.db_order}"`).
A board row always references an existing collection; the `none` fallback
is unreachable. -/
def boardLabel (st : DBState) (b : Board) : String :=
  match st.collectionOf b with
  | some c => c.abbreviation ++ natStr b.order
  | none => natStr b.order

/-- `Post.post_number()`: `str(number)` for a root post,
`f"{number}.{reply_number}"` for a reply. -/
def formatPostId (number replyNumber : Nat) : String :=
  if replyNumber = 0 then natStr number
  else natStr number ++ "." ++ natStr replyNumber

/-- The post-id parsing of `PostManager.find_post`: input without a dot is
`int(input)` with reply number 0; input with a dot is split at the first
dot with both halves passed to `int()`; `none` models the `ValueError`
branch (status `HTTP_400_BAD_REQUEST`). -/
def parsePostId (input : String) : Option (Int × Int) :=
  match splitAtFirstDot input.data with
  | some (a, b) =>
    match pyInt (String.mk a), pyInt (String.mk b) with
    | some n, some r => some (n, r)
    | _, _ => none
  | none => (pyInt input).map (fun n => (n, 0))

/-- A post id of the shape `N` (digits) or `N.R` (digits, dot, digits) —
the "valid post id" grammar of the round-trip property. -/
def isValidPostIdShape (s : String) : Bool :=
  match splitAtFirstDot s.data with
  | some (a, b) =>
    (!a.isEmpty && a.all Char.isDigit) && (!b.isEmpty && b.all Char.isDigit)
  | none => !s.data.isEmpty && s.data.all Char.isDigit

/-- Formatting applied to a parsed `(number, replyNumber)` pair (the
values coming from the digit grammar are nonnegative). -/
def formatParsed (p : Int × Int) : String :=
  formatPostId p.1.toNat p.2.toNat

/-! ## Entity resolution (`managers.py`) -/

/-- `BoardDBManager.find_board`: resolves `kwargs["board_id"]`.  An input
containing a dot is split into board id and page number (`int(page)`); an
input without a dot leaves the page at `-1` ("unspecified").  The lookup
matches the derived `board_id` annotation (abbreviation ++ order) and
excludes soft-deleted boards and boards of soft-deleted collections. -/
def find_board (st : DBState) (input : Option String) :
    Except OpError (Board × Int) :=
  match input with
  | none => .error (.badRequest, "You must provide a Board ID.")
  | some input =>
    let parsed : Except OpError (String × Int) :=
      match splitAtFirstDot input.data with
      | some (bid, pstr) =>
        match pyInt (String.mk pstr) with
        | some p => .ok (String.mk bid, p)
        | none => .error (.badRequest, "You must provide a valid page number.")
      | none => .ok (input, (-1 : Int))
    match parsed with
    | .error e => .error e
    | .ok (board_id, page_number) =>
      match st.boards.find? (fun b =>
          boardLabel st b == board_id && !b.deleted &&
          !(((st.collectionOf b).map Collection.deleted).getD false)) with
      | some found => .ok (found, page_number)
      | none => .error (.notFound, "No board found with ID " ++ input ++ ".")

/-- `PostManager.find_post`: parses `kwargs["post_id"]` via `parsePostId`
and looks up the non-deleted post of the board with that number and reply
number (`filter(board=board, number=·, reply_number=·, deleted=False)`). -/
def find_post (st : DBState) (board : Board) (input : Option String) :
    Except OpError Post :=
  match input with
  | none => .error (.badRequest, "You must provide a Post ID.")
  | some input =>
    match parsePostId input with
    | none => .error (.badRequest, "You must provide a valid Post ID.")
    | some (post_number, reply_number) =>
      match st.posts.find? (fun p =>
          p.boardId == board.id && ((p.number : Int) == post_number) &&
          ((p.replyNumber : Int) == reply_number) && !p.deleted) with
      | some found => .ok found
      | none => .error (.notFound, "No post found with ID " ++ input ++ ".")

/-- `CollectionDBManager.find_collection`: strips the input; a numeric
input resolves by primary key, otherwise by case-insensitive name and then
case-insensitive abbreviation — always excluding soft-deleted collections. -/
def find_collection (st : DBState) (input : Option String) :
    Except OpError Collection :=
  match input with
  | none => .error (.badRequest, "You must provide a Board Collection ID.")
  | some input =>
    let collection_id := pyStrip input
    let nondeleted := st.collections.filter (fun c => !c.deleted)
    if pyIsNumeric collection_id then
      match parseDigits collection_id.data with
      | some cid =>
        match nondeleted.find? (fun c => c.id == cid) with
        | some found => .ok found
        | none =>
          .error (.notFound,
            "No board collection found with ID " ++ collection_id ++ ".")
      | none =>
        .error (.notFound,
          "No board collection found with ID " ++ collection_id ++ ".")
    else
      match nondeleted.find? (fun c => pyLower c.key == pyLower collection_id) with
      | some found => .ok found
      | none =>
        match nondeleted.find?
            (fun c => pyLower c.abbreviation == pyLower collection_id) with
        | some found => .ok found
        | none =>
          .error (.notFound,
            "No board collection found with ID " ++ collection_id ++ ".")

/-! ## Post ordering (`Post.Meta.ordering = ["board", "number", "reply_number"]`) -/

/-- The model ordering on posts of one board: ascending `(number, reply_number)`. -/
def postLE (p q : Post) : Bool :=
  p.number < q.number || (p.number == q.number && p.replyNumber ≤ q.replyNumber)

/-- Insertion step of the ordering sort. -/
def insertSorted (p : Post) : List Post → List Post
  | [] => [p]
  | q :: rest => if postLE p q then p :: q :: rest else q :: insertSorted p rest

/-- `board.posts.all()`: every `Post` row of the board — soft-deleted rows
included, there is no `deleted` filter on this queryset — in the model
`Meta` ordering. -/
def boardPosts (st : DBState) (b : Board) : List Post :=
  (st.posts.filter (fun p => p.boardId == b.id)).foldr insertSorted []

/-! ## Post operations (`PostManager`) -/

/-- Result payload of `PostManager.op_list`. -/
structure ListResult where
  board : Board
  page : Int
  pages : Nat
  posts : List Post
deriving Repr, DecidableEq

/-- `PostManager.op_list`: resolves the board (the page may be embedded in
the board id), requires board `read` or `admin`, clamps `page < 1` to 1,
counts the non-deleted posts, computes `pages = ceil(count / posts_per_page)`
(the float division of the source is exact at these magnitudes, so it is
ceiling division), and takes the page window from the reverse ordering,
re-reversed so the in-page order is chronological.  The window slice is
`board.posts.all()` — it carries no `deleted` filter. -/
def PostManager.op_list (access : Board → String → Bool) (st : DBState)
    (board_id : Option String) (posts_per_page : Nat) :
    Except OpError ListResult :=
  match find_board st board_id with
  | .error e => .error e
  | .ok (board, page0) =>
    if !(access board "read" || access board "admin") then
      .error (.unauthorized, "You do not have permission to read from this board.")
    else
      let page : Int := if page0 < 1 then 1 else page0
      let count := ((boardPosts st board).filter (fun p => !p.deleted)).length
      let pages := (count + posts_per_page - 1) / posts_per_page
      let base := posts_per_page * (page - 1).toNat
      let window :=
        ((((boardPosts st board).reverse).drop base).take posts_per_page).reverse
      .ok { board := board, page := page, pages := pages, posts := window }

/-- `PostManager.op_create`: resolves the board, requires board `post` or
`admin`, strips the subject before its non-empty check, checks the body
non-empty (without stripping it), strips a truthy disguise, enforces the
`ic` and `disguise` board options, then in one atomic transaction persists
the post with `number = board.next_post_number` and `reply_number = 0`,
marks it read by its author, sets `board.last_activity` to the post's
creation time and advances `board.next_post_number` by one.  (The fanout
that follows in the source is modelled by `PostManager.op_create_fanout`.) -/
def PostManager.op_create (access : Board → String → Bool) (st : DBState)
    (userId : Nat) (characterId : Option Nat)
    (board_id subject body disguise : Option String) (now : Nat) :
    Except OpError (DBState × Post) :=
  match find_board st board_id with
  | .error e => .error e
  | .ok (board, _page) =>
    if !(access board "post" || access board "admin") then
      .error (.unauthorized, "You do not have permission to post to this board.")
    else
      let subject := pyStrip (subject.getD "")
      if subject == "" then
        .error (.badRequest, "You must provide a subject for the post.")
      else
        let body := body.getD ""
        if body == "" then
          .error (.badRequest, "You must provide a body for the post.")
        else
          let disguise :=
            match disguise with
            | some d => if d ≠ "" then some (pyStrip d) else some d
            | none => none
          let ic := board.icOption
          if ic && characterId.isNone then
            .error (.badRequest, "You must provide a character for the post.")
          else if board.disguiseOption && disguise.getD "" == "" then
            .error (.badRequest, "You must provide a disguise name for the post.")
          else
            let post : Post :=
              { id := st.nextPostRowId
                boardId := board.id
                userId := userId
                characterId := if ic then characterId else none
                disguise := if board.disguiseOption then disguise else none
                number := board.nextPostNumber
                replyNumber := 0
                subject := subject
                body := body
                dateCreated := now
                dateModified := now
                deleted := false
                readBy := [userId] }
            let board2 : Board :=
              { board with
                lastActivity := now
                nextPostNumber := board.nextPostNumber + 1 }
            let st2 : DBState :=
              { st with
                posts := st.posts ++ [post]
                boards := st.boards.map
                  (fun b => if b.id == board.id then board2 else b)
                nextPostRowId := st.nextPostRowId + 1 }
            .ok (st2, post)

/-- The reply-number aggregate of `op_reply`:
`filter(board=board, number=number).aggregate(Max("reply_number"))` —
no `deleted` filter; `none` models the SQL `NULL` of an empty queryset. -/
def maxReplyNumber (st : DBState) (board : Board) (number : Nat) : Option Nat :=
  match (st.posts.filter
      (fun p => p.boardId == board.id && p.number == number)).map Post.replyNumber with
  | [] => none
  | v :: rest => some (rest.foldl max v)

/-- `PostManager.op_reply`: resolves the board and the target post,
requires board `post` or `admin`, checks the body non-empty, computes the
new reply number as the thread maximum plus one (1 when the aggregate is
`NULL`), subjects the reply to the same `ic`/`disguise` option enforcement,
and in one atomic transaction persists the reply (subject
`"RE: " ++ target subject`, same `number` as the target), marks it read by
its author and sets `board.last_activity` — `board.next_post_number` is
not touched. -/
def PostManager.op_reply (access : Board → String → Bool) (st : DBState)
    (userId : Nat) (characterId : Option Nat)
    (board_id post_id body disguise : Option String) (now : Nat) :
    Except OpError (DBState × Post) :=
  match find_board st board_id with
  | .error e => .error e
  | .ok (board, _page) =>
    if !(access board "post" || access board "admin") then
      .error (.unauthorized, "You do not have permission to post to this board.")
    else
      match find_post st board post_id with
      | .error e => .error e
      | .ok post =>
        let body := body.getD ""
        if body == "" then
          .error (.badRequest, "You must provide a body for the reply.")
        else
          let disguise :=
            match disguise with
            | some d => if d ≠ "" then some (pyStrip d) else some d
            | none => none
          let replyNumber :=
            match maxReplyNumber st board post.number with
            | some m => m + 1
            | none => 1
          let ic := board.icOption
          if ic && characterId.isNone then
            .error (.badRequest, "You must provide a character for the post.")
          else if board.disguiseOption && disguise.getD "" == "" then
            .error (.badRequest, "You must provide a disguise name for the post.")
          else
            let reply : Post :=
              { id := st.nextPostRowId
                boardId := board.id
                userId := userId
                characterId := if ic then characterId else none
                disguise := if board.disguiseOption then disguise else none
                number := post.number
                replyNumber := replyNumber
                subject := "RE: " ++ post.subject
                body := body
                dateCreated := now
                dateModified := now
                deleted := false
                readBy := [userId] }
            let board2 := { board with lastActivity := now }
            let st2 : DBState :=
              { st with
                posts := st.posts ++ [reply]
                boards := st.boards.map
                  (fun b => if b.id == board.id then board2 else b)
                nextPostRowId := st.nextPostRowId + 1 }
            .ok (st2, reply)

/-- `PostManager.op_remove`: resolves the board and the post, requires
board `post` or `admin`, then applies the source's authorization
expression verbatim —
`if not (post.user == operation.user or post.character == operation.character) or board.access(operation.actor, "admin")` —
raising Unauthorized when it is true, and otherwise soft-deletes the post
(no renumbering of any other post). -/
def PostManager.op_remove (access : Board → String → Bool) (st : DBState)
    (userId : Nat) (characterId : Option Nat)
    (board_id post_id : Option String) :
    Except OpError (DBState × Post) :=
  match find_board st board_id with
  | .error e => .error e
  | .ok (board, _page) =>
    if !(access board "post" || access board "admin") then
      .error (.unauthorized, "You do not have permission to post to this board.")
    else
      match find_post st board post_id with
      | .error e => .error e
      | .ok post =>
        if !(post.userId == userId || post.characterId == characterId)
            || access board "admin" then
          .error (.unauthorized, "You do not have permission to remove this post.")
        else
          let post2 := { post with deleted := true }
          let newPosts := st.posts.map
            (fun p => if p.id == post.id then post2 else p)
          let st2 : DBState := { st with posts := newPosts }
          .ok (st2, post2)

/-! ## Board listing (`BoardDBManager.op_list`) -/

/-- One entry of the board-list payload. -/
structure BoardEntry where
  board : Board
  postCount : Nat
  unreadCount : Nat
  readPerm : Bool
  postPerm : Bool
  adminPerm : Bool
deriving Repr, DecidableEq

/-- `BoardDBManager.op_list`: iterates `self.all()` — every board row, with
no `db_deleted` filter on this queryset — keeping the boards whose owning
collection grants `read` (or the board grants `admin`) and which themselves
grant `read` (or `admin`) to the actor.  `post_count` is
`board.posts.count()` (no `deleted` filter) and `unread_count` subtracts
the actor's read posts (again unfiltered). -/
def BoardDBManager.op_list
    (caccess : Collection → String → Bool) (access : Board → String → Bool)
    (st : DBState) (userId : Nat) : List BoardEntry :=
  st.boards.filterMap (fun board =>
    let collectionRead :=
      match st.collectionOf board with
      | some c => caccess c "read"
      | none => false
    if !(collectionRead || access board "admin") then none
    else if !(access board "read" || access board "admin") then none
    else
      let bposts := st.posts.filter (fun p => p.boardId == board.id)
      let postCount := bposts.length
      let readCount := (bposts.filter (fun p => p.readBy.contains userId)).length
      some { board := board
             postCount := postCount
             unreadCount := postCount - readCount
             readPerm := access board "read"
             postPerm := access board "post"
             adminPerm := access board "admin" })

/-! ## Collection delete (`CollectionDBManager.op_delete`) -/

/-- `CollectionDBManager.op_delete`: requires the global
`BOARD_PERMISSIONS_ADMIN_OVERRIDE` lockstring on the actor, resolves the
collection, and — when `collection.boards.count()` is nonzero (every board
row of the collection, soft-deleted boards included: the related manager
applies no `db_deleted` filter) — demands that `validate` equal the
collection name case-insensitively, raising `HTTP_400_BAD_REQUEST`
otherwise; on success marks the collection soft-deleted. -/
def CollectionDBManager.op_delete (overridePass : Bool) (st : DBState)
    (collection_id validate : Option String) :
    Except OpError (DBState × Collection) :=
  if !overridePass then
    .error (.unauthorized, "You do not have permission to delete a board collection.")
  else
    match find_collection st collection_id with
    | .error e => .error e
    | .ok collection =>
      let validate := validate.getD ""
      let boardCount :=
        (st.boards.filter (fun b => b.collectionId == collection.id)).length
      if boardCount ≠ 0 && pyLower validate ≠ pyLower collection.key then
        .error (.badRequest,
          "Board Collection '" ++ collection.abbreviation ++ ": " ++
          collection.key ++
          "' still has boards.  You must provide the collection name to confirm deletion.")
      else
        let collection2 := { collection with deleted := true }
        let newCollections := st.collections.map
          (fun c => if c.id == collection.id then collection2 else c)
        let st2 : DBState := { st with collections := newCollections }
        .ok (st2, collection2)

/-! ## Notification fanout (`op_create` / `op_reply` tail loops) -/

/-- The fanout loop of `op_create`/`op_reply`: for each connected target,
a target failing the board `read`-or-`admin` check is skipped (`continue`);
a surviving target is delivered to via `target.system_send`.  The loop body
has no exception handler: a raised delivery failure propagates and aborts
the remaining iterations (the already-committed transaction is unaffected).
Returns the list of targets actually delivered to and whether the loop
finished without a delivery exception. -/
def fanoutLoop (eligible : Nat → Bool) (deliver : Nat → Except Unit Unit) :
    List Nat → List Nat × Bool
  | [] => ([], true)
  | t :: ts =>
    if !eligible t then fanoutLoop eligible deliver ts
    else
      match deliver t with
      | .ok _ =>
        let r := fanoutLoop eligible deliver ts
        (t :: r.1, r.2)
      | .error _ => ([], false)

/-- `PostManager.op_create` including its notification fanout: the atomic
transaction commits first, then the fanout loop runs over the connected
targets (`online_characters()` when the board is `ic`, else
`online_accounts()`; `eligible` is the per-target board
`read`-or-`admin` re-check).  A delivery exception escapes `op_create` in
the source, but the post is already committed — the returned state is the
committed one regardless of the delivery outcomes. -/
def PostManager.op_create_fanout (access : Board → String → Bool)
    (st : DBState) (userId : Nat) (characterId : Option Nat)
    (board_id subject body disguise : Option String) (now : Nat)
    (targets : List Nat) (eligible : Nat → Bool)
    (deliver : Nat → Except Unit Unit) :
    Except OpError (DBState × Post × List Nat × Bool) :=
  match PostManager.op_create access st userId characterId
      board_id subject body disguise now with
  | .error e => .error e
  | .ok (st2, post) =>
    let r := fanoutLoop eligible deliver targets
    .ok (st2, post, r.1, r.2)

/-- `PostManager.op_reply` including its notification fanout: the loop at
the tail of `op_reply` is line-for-line the same pattern as the one in
`op_create` — the atomic transaction commits first, then the loop skips
targets failing the board `read`-or-`admin` re-check and delivers to the
rest via a bare `target.system_send`, so a delivery exception escapes
`op_reply` with the reply already committed. -/
def PostManager.op_reply_fanout (access : Board → String → Bool)
    (st : DBState) (userId : Nat) (characterId : Option Nat)
    (board_id post_id body disguise : Option String) (now : Nat)
    (targets : List Nat) (eligible : Nat → Bool)
    (deliver : Nat → Except Unit Unit) :
    Except OpError (DBState × Post × List Nat × Bool) :=
  match PostManager.op_reply access st userId characterId
      board_id post_id body disguise now with
  | .error e => .error e
  | .ok (st2, reply) =>
    let r := fanoutLoop eligible deliver targets
    .ok (st2, reply, r.1, r.2)

/-! ## Access resolution (`boards.py`, spec §4.2) -/

/-- The external collaborators of access resolution: the lock-expression
evaluator applied to an entity's own lock storage for a capability, and the
global `BOARD_PERMISSIONS_ADMIN_OVERRIDE` lockstring check on the acting
identity (`objects.check_override` /
`actor.locks.check_lockstring(..., settings.BOARD_PERMISSIONS_ADMIN_OVERRIDE)`). -/
structure LockEnv (Actor : Type) where
  collectionLock : Collection → String → Actor → Bool
  boardLock : Board → String → Actor → Bool
  overridePass : Actor → Bool

/-- The collection `admin` capability.
`DefaultBoardCollection.access_check_admin` is
`self.check_override(accessing_obj)` — the global override.  The
surrounding `AthanorAccess.access` combinator is not under `src/`;
modelled from the spec: an entity capability resolves as the entity's
`access_check` hook OR the entity-level lock check. -/
def collectionAccessAdmin {A : Type} (env : LockEnv A) (c : Collection)
    (actor : A) : Bool :=
  env.overridePass actor || env.collectionLock c "admin" actor

/-- The board `admin` capability.  `DefaultBoard.access_check_admin` is
`self.check_override(accessing_obj) or self.collection.access(accessing_obj, "admin")`
(the board's `check_override` delegates to the collection's, i.e. the
global override); combined — modelled from the spec, as above — with the
board's own entity-level admin lock. -/
def boardAccessAdmin {A : Type} (env : LockEnv A) (b : Board) (c : Collection)
    (actor : A) : Bool :=
  (env.overridePass actor || collectionAccessAdmin env c actor)
    || env.boardLock b "admin" actor

/-! ## Supporting lemmas: decimal rendering and parsing -/

theorem digitChar10_isDigit {d : Nat} (h : d < 10) :
    (digitChar10 d).isDigit = true := by
  unfold digitChar10; interval_cases d <;> decide

theorem digitVal_digitChar10 {d : Nat} (h : d < 10) :
    digitVal (digitChar10 d) = d := by
  unfold digitChar10 digitVal; interval_cases d <;> decide

theorem isDigit_ne_minus {c : Char} (h : c.isDigit = true) : c ≠ '-' := by
  intro heq; rw [heq] at h; exact absurd h (by decide)

theorem isDigit_ne_dot {c : Char} (h : c.isDigit = true) : c ≠ '.' := by
  intro heq; rw [heq] at h; exact absurd h (by decide)

theorem natCharsAux_all_digits :
    ∀ fuel n, (natCharsAux fuel n).all Char.isDigit = true
  | 0, _ => rfl
  | fuel + 1, n => by
    unfold natCharsAux
    by_cases h : n = 0
    · simp [h]
    · simp [h, List.all_append, natCharsAux_all_digits fuel (n / 10),
        digitChar10_isDigit (Nat.mod_lt n (by norm_num))]

theorem natChars_all_digits (n : Nat) :
    (natChars n).all Char.isDigit = true := by
  unfold natChars
  by_cases h : n = 0
  · simp [h]
  · simp [h, natCharsAux_all_digits]

theorem natCharsAux_ne_nil (fuel n : Nat) (h : n ≠ 0) :
    natCharsAux (fuel + 1) n ≠ [] := by
  unfold natCharsAux
  simp [h]

theorem natChars_ne_nil (n : Nat) : natChars n ≠ [] := by
  unfold natChars
  by_cases h : n = 0
  · simp [h]
  · simp only [h, if_false]
    exact natCharsAux_ne_nil n n h

theorem natCharsAux_foldl :
    ∀ fuel n a, n < fuel →
      (natCharsAux fuel n).foldl (fun acc c => acc * 10 + digitVal c) a
        = a * 10 ^ (natCharsAux fuel n).length + n
  | 0, n, a, h => by omega
  | fuel + 1, n, a, h => by
    by_cases h0 : n = 0
    · subst h0; simp [natCharsAux]
    · have hdiv : n / 10 < fuel := by
        have h1 : n / 10 < n := Nat.div_lt_self (Nat.pos_of_ne_zero h0) (by norm_num)
        omega
      have ih := natCharsAux_foldl fuel (n / 10) a hdiv
      unfold natCharsAux
      simp only [h0, if_false, List.foldl_append, List.foldl_cons, List.foldl_nil,
        List.length_append, List.length_cons, List.length_nil]
      rw [ih, digitVal_digitChar10 (Nat.mod_lt n (by norm_num))]
      rw [pow_succ]
      have := Nat.div_add_mod n 10
      ring_nf
      omega

theorem parseDigits_natChars (n : Nat) : parseDigits (natChars n) = some n := by
  by_cases h0 : n = 0
  · subst h0; decide
  · have hne : natChars n ≠ [] := natChars_ne_nil n
    have hall := natChars_all_digits n
    unfold parseDigits
    rw [if_pos (by simp [hne, hall])]
    have hval := natCharsAux_foldl (n + 1) n 0 (Nat.lt_succ_self n)
    unfold natChars
    simp only [h0, if_false]
    rw [hval]
    simp

theorem pyInt_mk_natChars (n : Nat) :
    pyInt (String.mk (natChars n)) = some (n : Int) := by
  obtain ⟨c, cs, hcc⟩ := List.exists_cons_of_ne_nil (natChars_ne_nil n)
  have hc : c.isDigit = true := by
    have hall := natChars_all_digits n
    rw [hcc] at hall
    simp [List.all_cons] at hall
    exact hall.1
  have hstep : pyInt (String.mk (natChars n))
      = (parseDigits (natChars n)).map (fun k => (k : Int)) := by
    rw [hcc]
    simp [pyInt, isDigit_ne_minus hc]
  rw [hstep, parseDigits_natChars n]
  rfl

theorem natChars_no_dot (n : Nat) : ∀ c ∈ natChars n, c ≠ '.' := by
  intro c hc
  exact isDigit_ne_dot (List.all_eq_true.mp (natChars_all_digits n) c hc)

theorem splitAtFirstDot_append (A B : List Char) (h : ∀ c ∈ A, c ≠ '.') :
    splitAtFirstDot (A ++ '.' :: B) = some (A, B) := by
  induction A with
  | nil => simp [splitAtFirstDot]
  | cons c cs ih =>
    have hc : ¬c = '.' := h c (List.mem_cons_self c cs)
    have ih2 := ih (fun x hx => h x (List.mem_cons_of_mem c hx))
    simp [splitAtFirstDot, hc, ih2]

theorem splitAtFirstDot_none (A : List Char) (h : ∀ c ∈ A, c ≠ '.') :
    splitAtFirstDot A = none := by
  induction A with
  | nil => rfl
  | cons c cs ih =>
    have hc : ¬c = '.' := h c (List.mem_cons_self c cs)
    have ih2 := ih (fun x hx => h x (List.mem_cons_of_mem c hx))
    simp [splitAtFirstDot, hc, ih2]

/-- **C5 — counterexample.**  The round-trip `format ∘ parse = id` fails on
valid post-id shapes: `"1.0"` matches `N.R` but parses to `(1, 0)` which
formats back to `"1"`, and `"01"` matches `N` but formats back to `"1"`. -/
theorem postid_roundtrip_counterexample :
    isValidPostIdShape "1.0" = true
      ∧ (parsePostId "1.0").map formatParsed = some "1"
      ∧ ("1" : String) ≠ "1.0"
      ∧ isValidPostIdShape "01" = true
      ∧ (parsePostId "01").map formatParsed = some "1"
      ∧ ("1" : String) ≠ "01" := by
  exact ⟨by decide, by decide, by decide, by decide, by decide, by decide⟩

/-- **C5 (amended).**  Parsing is a left inverse of formatting: for every
`(number, replyNumber)` pair, parsing the formatted post id returns the
pair, and hence `format ∘ parse` fixes every canonical post id (decimal
components without leading zeros, the reply part present exactly when the
reply number is nonzero).  The round-trip as originally claimed fails for
the non-canonical valid shapes `N.0` and leading-zero numerals. -/
theorem postid_parse_format_roundtrip (n r : Nat) :
    parsePostId (formatPostId n r) = some ((n : Int), (r : Int))
      ∧ (parsePostId (formatPostId n r)).map formatParsed
          = some (formatPostId n r) := by
  have hmain : parsePostId (formatPostId n r) = some ((n : Int), (r : Int)) := by
    by_cases hr : r = 0
    · subst hr
      unfold formatPostId parsePostId
      rw [if_pos rfl]
      rw [show (natStr n).data = natChars n from rfl]
      rw [splitAtFirstDot_none (natChars n) (natChars_no_dot n)]
      rw [show natStr n = String.mk (natChars n) from rfl]
      rw [pyInt_mk_natChars n]
      rfl
    · unfold formatPostId parsePostId
      rw [if_neg hr]
      have hdata : (natStr n ++ "." ++ natStr r).data
          = natChars n ++ '.' :: natChars r := by
        rw [String.data_append, String.data_append, List.append_assoc]
        rfl
      rw [hdata]
      rw [splitAtFirstDot_append (natChars n) (natChars r) (natChars_no_dot n)]
      simp only [pyInt_mk_natChars]
  refine ⟨hmain, ?_⟩
  rw [hmain]
  simp [formatParsed]

/-- What a successful `PostManager.op_create` guarantees (shared helper):
the board resolved, the new post carries the board's pre-operation
`next_post_number` with reply number 0, it is persisted and read by its
author, and the board row is updated with the advanced counter and the
post's creation time. -/
theorem op_create_ok_spec
    (access : Board → String → Bool) (st : DBState) (userId : Nat)
    (characterId : Option Nat) (board_id subject body disguise : Option String)
    (now : Nat) (st2 : DBState) (post : Post)
    (h : PostManager.op_create access st userId characterId
        board_id subject body disguise now = .ok (st2, post)) :
    ∃ board page, find_board st board_id = .ok (board, page)
      ∧ post.number = board.nextPostNumber
      ∧ post.replyNumber = 0
      ∧ post.dateCreated = now
      ∧ post.readBy = [userId]
      ∧ post.subject = pyStrip (subject.getD "")
      ∧ post.body = body.getD ""
      ∧ st2.posts = st.posts ++ [post]
      ∧ st2.collections = st.collections
      ∧ st2.boards = st.boards.map (fun b =>
          if b.id == board.id then
            { board with
              lastActivity := now
              nextPostNumber := board.nextPostNumber + 1 }
          else b) := by
  unfold PostManager.op_create at h
  rcases hfb : find_board st board_id with e | ⟨board, page0⟩ <;> rw [hfb] at h
  · simp at h
  · simp only [] at h
    repeat' split at h
    all_goals
      first
        | (simp only [Except.ok.injEq, Prod.mk.injEq] at h
           obtain ⟨h1, h2⟩ := h
           subst h1
           subst h2
           exact ⟨board, page0, rfl, rfl, rfl, rfl, rfl, rfl, rfl, rfl, rfl, rfl⟩)
        | simp at h

/-! ## Concrete scenario data -/

/-- A sample collection (abbreviation `GEN`). -/
def genCollection : Collection :=
  { id := 1, key := "General", abbreviation := "GEN", deleted := false }

/-- A sample board of `genCollection` with label `GEN1` and the given
counter value. -/
def mkGenBoard (nextPostNumber : Nat) : Board :=
  { id := 1, collectionId := 1, key := "Announcements", order := 1,
    nextPostNumber := nextPostNumber, lastActivity := 0, deleted := false,
    icOption := false, disguiseOption := false }

/-- A simple root post on board 1 with row id and number `i`. -/
def mkSimplePost (i userId : Nat) (deleted : Bool) : Post :=
  { id := i, boardId := 1, userId := userId, characterId := none,
    disguise := none, number := i, replyNumber := 0, subject := "s",
    body := "b", dateCreated := i, dateModified := i, deleted := deleted,
    readBy := [] }

/-- An access function granting every capability (an actor who passes every
lock check). -/
def fullAccess : Board → String → Bool := fun _ _ => true

/-! ## C6: the post-create transaction -/

/-- Scenario state for the create transaction: an empty `GEN1` board whose
counter stands at 5. -/
def c6State : DBState :=
  { collections := [genCollection], boards := [mkGenBoard 5], posts := [],
    nextPostRowId := 1 }

/-- The post produced by the C6 witness create. -/
def c6Post : Post :=
  { id := 1, boardId := 1, userId := 7, characterId := none, disguise := none,
    number := 5, replyNumber := 0, subject := "Hello", body := "World",
    dateCreated := 42, dateModified := 42, deleted := false, readBy := [7] }

/-- The state after the C6 witness create. -/
def c6State2 : DBState :=
  { collections := [genCollection]
    boards := [{ mkGenBoard 5 with lastActivity := 42, nextPostNumber := 6 }]
    posts := [c6Post]
    nextPostRowId := 2 }

/-- **C6.**  Every successful post create takes `number` from the board's
`next_post_number` as of the start of the operation with `reply_number = 0`,
and the one transaction persists the post, marks it read by its author,
advances the board counter by exactly one and sets `last_activity` to the
post's creation time.  On any validation or permission failure `op_create`
returns only an error, so no state change occurs (the `Except` embedding). -/
theorem post_create_transaction
    (access : Board → String → Bool) (st : DBState) (userId : Nat)
    (characterId : Option Nat) (board_id subject body disguise : Option String)
    (now : Nat) (st2 : DBState) (post : Post)
    (h : PostManager.op_create access st userId characterId
        board_id subject body disguise now = .ok (st2, post)) :
    ∃ board page, find_board st board_id = .ok (board, page)
      ∧ post.number = board.nextPostNumber
      ∧ post.replyNumber = 0
      ∧ st2.posts = st.posts ++ [post]
      ∧ post.readBy = [userId]
      ∧ st2.boards = st.boards.map (fun b =>
          if b.id == board.id then
            { board with
              lastActivity := post.dateCreated
              nextPostNumber := board.nextPostNumber + 1 }
          else b) := by
  obtain ⟨board, page, hfb, hnum, hrep, hdate, hread, _, _, hposts, _, hboards⟩ :=
    op_create_ok_spec access st userId characterId board_id subject body
      disguise now st2 post h
  refine ⟨board, page, hfb, hnum, hrep, hposts, hread, ?_⟩
  rw [hdate]
  exact hboards

/-- Witness for C6: a concrete create on `c6State` succeeds and exhibits
every conjunct. -/
theorem post_create_transaction_witness :
    ∃ board page, find_board c6State (some "GEN1") = .ok (board, page)
      ∧ c6Post.number = board.nextPostNumber
      ∧ c6Post.replyNumber = 0
      ∧ c6State2.posts = c6State.posts ++ [c6Post]
      ∧ c6Post.readBy = [7]
      ∧ c6State2.boards = c6State.boards.map (fun b =>
          if b.id == board.id then
            { board with
              lastActivity := c6Post.dateCreated
              nextPostNumber := board.nextPostNumber + 1 }
          else b) :=
  post_create_transaction fullAccess c6State 7 none (some "GEN1")
    (some "Hello") (some "World") none 42 c6State2 c6Post (by rfl)

/-! ## C10: subject stripped before the non-empty check; body unstripped -/

/-- Scenario state for C10. -/
def c10State : DBState :=
  { collections := [genCollection], boards := [mkGenBoard 1], posts := [],
    nextPostRowId := 1 }

/-- The post produced by the C10 witness create (whitespace-only body kept
verbatim). -/
def c10Post : Post :=
  { id := 1, boardId := 1, userId := 7, characterId := none, disguise := none,
    number := 1, replyNumber := 0, subject := "Hi", body := "   ",
    dateCreated := 42, dateModified := 42, deleted := false, readBy := [7] }

/-- The state after the C10 witness create. -/
def c10State2 : DBState :=
  { collections := [genCollection]
    boards := [{ mkGenBoard 1 with lastActivity := 42, nextPostNumber := 2 }]
    posts := [c10Post]
    nextPostRowId := 2 }

/-- **C10.**  In `op_create` the subject is stripped before the non-empty
check — a whitespace-only subject fails with BadRequest even past the
access gate — while the body is used verbatim: every created post carries
exactly the supplied body, so a whitespace-only (non-empty) body is
accepted as-is. -/
theorem post_create_strip_asymmetry :
    (∀ (access : Board → String → Bool) (st : DBState) (userId : Nat)
       (characterId : Option Nat) (board_id subject body disguise : Option String)
       (now : Nat) (board : Board) (page : Int),
       find_board st board_id = .ok (board, page) →
       (access board "post" || access board "admin") = true →
       pyStrip (subject.getD "") = "" →
       PostManager.op_create access st userId characterId
           board_id subject body disguise now
         = .error (.badRequest, "You must provide a subject for the post."))
    ∧ (∀ (access : Board → String → Bool) (st : DBState) (userId : Nat)
       (characterId : Option Nat) (board_id subject body disguise : Option String)
       (now : Nat) (st2 : DBState) (post : Post),
       PostManager.op_create access st userId characterId
           board_id subject body disguise now = .ok (st2, post) →
       post.body = body.getD "") := by
  constructor
  · intro access st userId characterId board_id subject body disguise now
      board page hfb hacc hsubj
    unfold PostManager.op_create
    rw [hfb]
    simp [hacc, hsubj]
  · intro access st userId characterId board_id subject body disguise now
      st2 post h
    obtain ⟨board, page, _, _, _, _, _, _, hbody, _, _, _⟩ :=
      op_create_ok_spec access st userId characterId board_id subject body
        disguise now st2 post h
    exact hbody

/-- Witness for C10: a whitespace-only subject is rejected with BadRequest
on `c10State`, and a create with the whitespace-only body `"   "` succeeds
and stores that body verbatim. -/
theorem post_create_strip_asymmetry_witness :
    PostManager.op_create fullAccess c10State 7 none (some "GEN1")
        (some "   ") (some "World") none 42
      = .error (.badRequest, "You must provide a subject for the post.")
    ∧ c10Post.body = (some "   ").getD "" :=
  ⟨post_create_strip_asymmetry.1 fullAccess c10State 7 none (some "GEN1")
      (some "   ") (some "World") none 42 (mkGenBoard 1) (-1)
      (by rfl) (by rfl) (by rfl),
   post_create_strip_asymmetry.2 fullAccess c10State 7 none (some "GEN1")
      (some "Hi") (some "   ") none 42 c10State2 c10Post (by rfl)⟩

/-! ## C2: pagination -/

/-- Scenario state for C2: `GEN1` with 120 non-deleted posts numbered
1 through 120 in chronological order. -/
def c2State : DBState :=
  { collections := [genCollection]
    boards := [mkGenBoard 121]
    posts := (List.range 120).map (fun i => mkSimplePost (i + 1) 1 false)
    nextPostRowId := 121 }

set_option maxRecDepth 16384 in
/-- **C2.**  `op_list` computes `pages` as the ceiling of the non-deleted
post count over `posts_per_page`; and on a board with 120 non-deleted posts
and `posts_per_page = 50`, a request without an explicit page (the page is
"unspecified", `-1`, clamped to 1 — the first page of the newest-first
ordering, i.e. the last/most-recent window) yields `pages = 3` and exactly
the posts numbered 71 through 120 in chronological (oldest-to-newest)
order. -/
theorem post_list_pages_and_default_window :
    (∀ (access : Board → String → Bool) (st : DBState) (input : Option String)
       (pp : Nat) (r : ListResult),
       PostManager.op_list access st input pp = .ok r →
       r.pages
         = (((boardPosts st r.board).filter (fun p => !p.deleted)).length + pp - 1)
             / pp)
    ∧ PostManager.op_list fullAccess c2State (some "GEN1") 50
        = .ok { board := mkGenBoard 121, page := 1, pages := 3,
                posts := (List.range 50).map
                  (fun i => mkSimplePost (71 + i) 1 false) } := by
  constructor
  · intro access st input pp r h
    unfold PostManager.op_list at h
    rcases hfb : find_board st input with e | ⟨board, page0⟩ <;> rw [hfb] at h
    · simp at h
    · simp only [] at h
      split at h
      · simp at h
      · simp only [Except.ok.injEq] at h
        subst h
        rfl
  · rfl

/-- Witness for C2: the pages formula instantiated at the concrete
120-post scenario (3 pages at 50 per page). -/
theorem post_list_pages_witness :
    (3 : Nat)
      = (((boardPosts c2State (mkGenBoard 121)).filter
            (fun p => !p.deleted)).length + 50 - 1) / 50 :=
  post_list_pages_and_default_window.1 fullAccess c2State (some "GEN1") 50
    { board := mkGenBoard 121, page := 1, pages := 3,
      posts := (List.range 50).map (fun i => mkSimplePost (71 + i) 1 false) }
    post_list_pages_and_default_window.2

/-! ## C7: reply numbering and threading -/

/-- **C7.**  Every successful reply targets a resolved post, takes
`number` from the target, `reply_number` one above the thread's aggregate
maximum (so 1 when the aggregate is empty), subject `"RE: "` plus the
target's subject, and the transaction persists the reply, marks it read by
its author, and updates only `last_activity` on the board row — the
`next_post_number` counter is untouched. -/
theorem post_reply_numbering
    (access : Board → String → Bool) (st : DBState) (userId : Nat)
    (characterId : Option Nat) (board_id post_id body disguise : Option String)
    (now : Nat) (st2 : DBState) (reply : Post)
    (h : PostManager.op_reply access st userId characterId
        board_id post_id body disguise now = .ok (st2, reply)) :
    ∃ board page target, find_board st board_id = .ok (board, page)
      ∧ find_post st board post_id = .ok target
      ∧ reply.number = target.number
      ∧ reply.replyNumber = (maxReplyNumber st board target.number).getD 0 + 1
      ∧ reply.subject = "RE: " ++ target.subject
      ∧ reply.readBy = [userId]
      ∧ st2.posts = st.posts ++ [reply]
      ∧ st2.boards = st.boards.map (fun b =>
          if b.id == board.id then { board with lastActivity := now } else b) := by
  unfold PostManager.op_reply at h
  rcases hfb : find_board st board_id with e | ⟨board, page0⟩ <;> rw [hfb] at h
  · simp at h
  · simp only [] at h
    split at h
    · simp at h
    · rcases hfp : find_post st board post_id with e | target <;> rw [hfp] at h
      · simp at h
      · simp only [] at h
        rcases hmx : maxReplyNumber st board target.number with _ | m <;>
          rw [hmx] at h <;> simp only [] at h
        all_goals
          repeat' split at h
        all_goals
          first
            | (simp only [Except.ok.injEq, Prod.mk.injEq] at h
               obtain ⟨h1, h2⟩ := h
               subst h1
               subst h2
               exact ⟨board, page0, target, rfl, hfp, rfl, by simp [hmx], rfl,
                 rfl, rfl, rfl⟩)
            | simp at h

/-- The root post of the C7 witness scenario. -/
def c7Root : Post :=
  { id := 1, boardId := 1, userId := 1, characterId := none, disguise := none,
    number := 1, replyNumber := 0, subject := "Hello", body := "World",
    dateCreated := 10, dateModified := 10, deleted := false, readBy := [1] }

/-- Scenario state for C7: `GEN1` with one root post and the counter at 2. -/
def c7State : DBState :=
  { collections := [genCollection], boards := [mkGenBoard 2], posts := [c7Root],
    nextPostRowId := 2 }

/-- The reply produced by the C7 witness. -/
def c7Reply : Post :=
  { id := 2, boardId := 1, userId := 7, characterId := none, disguise := none,
    number := 1, replyNumber := 1, subject := "RE: Hello", body := "Body",
    dateCreated := 42, dateModified := 42, deleted := false, readBy := [7] }

/-- The state after the C7 witness reply. -/
def c7State2 : DBState :=
  { collections := [genCollection]
    boards := [{ mkGenBoard 2 with lastActivity := 42 }]
    posts := [c7Root, c7Reply]
    nextPostRowId := 3 }

/-- Witness for C7: the first reply to the root post gets reply number 1,
subject `"RE: Hello"`, and leaves the counter untouched. -/
theorem post_reply_numbering_witness :
    ∃ board page target, find_board c7State (some "GEN1") = .ok (board, page)
      ∧ find_post c7State board (some "1") = .ok target
      ∧ c7Reply.number = target.number
      ∧ c7Reply.replyNumber
          = (maxReplyNumber c7State board target.number).getD 0 + 1
      ∧ c7Reply.subject = "RE: " ++ target.subject
      ∧ c7Reply.readBy = [7]
      ∧ c7State2.posts = c7State.posts ++ [c7Reply]
      ∧ c7State2.boards = c7State.boards.map (fun b =>
          if b.id == board.id then { board with lastActivity := 42 } else b) :=
  post_reply_numbering fullAccess c7State 7 none (some "GEN1") (some "1")
    (some "Body") none 42 c7State2 c7Reply (by rfl)

/-! ## C1: the remove authorization expression -/

/-- Scenario state for C1: `GEN1` with one root post authored by account 1
with persona 11. -/
def c1Post : Post :=
  { id := 1, boardId := 1, userId := 1, characterId := some 11,
    disguise := none, number := 1, replyNumber := 0, subject := "Hello",
    body := "World", dateCreated := 10, dateModified := 10, deleted := false,
    readBy := [1] }

/-- Scenario state for C1. -/
def c1State : DBState :=
  { collections := [genCollection], boards := [mkGenBoard 2], posts := [c1Post],
    nextPostRowId := 2 }

/-- **C1 — the code contradicts the claim.**  The removal authorization in
the source is `if not(post.user == operation.user or post.character ==
operation.character) or board.access(operation.actor, "admin"): raise`,
which rejects every actor who holds board `admin`: a board admin who is
not the author is rejected with Unauthorized (first conjunct, against the
claimed "author OR admin may remove"), and even the original author is
rejected as soon as they hold board admin (second conjunct, against
"fails only when the actor is neither author nor admin").  Both actors
pass the preceding board post-or-admin gate and target a resolvable
non-deleted post. -/
theorem post_remove_admin_rejected :
    PostManager.op_remove fullAccess c1State 2 (some 22) (some "GEN1") (some "1")
      = .error (.unauthorized, "You do not have permission to remove this post.")
    ∧ PostManager.op_remove fullAccess c1State 1 (some 11) (some "GEN1") (some "1")
      = .error (.unauthorized, "You do not have permission to remove this post.") :=
  ⟨rfl, rfl⟩

/-! ## C3: soft-deleted rows leak into listings -/

/-- C3 scenario: a live post on board 1. -/
def c3PostLive : Post := mkSimplePost 1 1 false

/-- C3 scenario: a soft-deleted post on board 1. -/
def c3PostDeleted : Post := mkSimplePost 2 1 true

/-- C3 scenario: a soft-deleted board in the same collection. -/
def c3BoardDeleted : Board :=
  { id := 2, collectionId := 1, key := "Archive", order := 2,
    nextPostNumber := 1, lastActivity := 0, deleted := true,
    icOption := false, disguiseOption := false }

/-- C3 scenario state: live board `GEN1` carrying one live and one
soft-deleted post, plus a soft-deleted board `GEN2`. -/
def c3State : DBState :=
  { collections := [genCollection]
    boards := [mkGenBoard 3, c3BoardDeleted]
    posts := [c3PostLive, c3PostDeleted]
    nextPostRowId := 3 }

/-- A collection access function granting everything. -/
def fullCollectionAccess : Collection → String → Bool := fun _ _ => true

/-- **C3 — the code contradicts the claim.**  Soft-deleted rows are not
excluded from the listings: the post list window (`board.posts.all()`,
sliced without a `deleted` filter) returns the soft-deleted post, and the
board list (`self.all()`, no `db_deleted` filter) returns the soft-deleted
board and reports `post_count`/`unread_count` over all rows including the
soft-deleted post — even though `find_board`/`find_post` do exclude
deleted rows and `Board.serialize` itself filters `deleted=False` for its
own `post_count`. -/
theorem soft_deleted_rows_leak :
    PostManager.op_list fullAccess c3State (some "GEN1") 50
      = .ok { board := mkGenBoard 3, page := 1, pages := 1,
              posts := [c3PostLive, c3PostDeleted] }
    ∧ c3PostDeleted.deleted = true
    ∧ BoardDBManager.op_list fullCollectionAccess fullAccess c3State 1
      = [{ board := mkGenBoard 3, postCount := 2, unreadCount := 2,
           readPerm := true, postPerm := true, adminPerm := true },
         { board := c3BoardDeleted, postCount := 0, unreadCount := 0,
           readPerm := true, postPerm := true, adminPerm := true }]
    ∧ c3BoardDeleted.deleted = true :=
  ⟨rfl, rfl, rfl, rfl⟩

/-! ## C4: collection delete confirmation -/

/-- C4 scenario: the collection still has one live board. -/
def c4StateLive : DBState :=
  { collections := [genCollection], boards := [mkGenBoard 1], posts := [],
    nextPostRowId := 1 }

/-- C4 scenario: the collection's only board is soft-deleted. -/
def c4StateDeleted : DBState :=
  { collections := [genCollection]
    boards := [{ mkGenBoard 1 with deleted := true }]
    posts := []
    nextPostRowId := 1 }

/-- **C4 — counterexample.**  With one live board and a wrong confirmation
name the delete fails with status `HTTP_400_BAD_REQUEST`, not Conflict
(first two conjuncts); and a collection whose only board is soft-deleted —
zero *non-deleted* boards — still demands confirmation, because
`collection.boards.count()` counts every board row (last two conjuncts). -/
theorem collection_delete_counterexample :
    CollectionDBManager.op_delete true c4StateLive (some "1") (some "")
      = .error (.badRequest,
          "Board Collection 'GEN: General' still has boards.  You must provide the collection name to confirm deletion.")
    ∧ Status.badRequest ≠ Status.conflict
    ∧ CollectionDBManager.op_delete true c4StateDeleted (some "1") none
      = .error (.badRequest,
          "Board Collection 'GEN: General' still has boards.  You must provide the collection name to confirm deletion.")
    ∧ (c4StateDeleted.boards.filter
        (fun b => !b.deleted && b.collectionId == genCollection.id)).length = 0 :=
  ⟨by decide, by decide, by decide, by decide⟩

/-- **C4 (amended).**  For every collection delete by an actor holding the
global admin override, on a resolvable collection: if at least one board
*row* (soft-deleted boards included) belongs to the collection and the
supplied confirmation name does not case-insensitively equal the
collection's name, the operation fails with status BadRequest (the source
uses `HTTP_400_BAD_REQUEST`, not Conflict) and returns no new state, so
the collection remains not soft-deleted; if the collection has zero board
rows, it is soft-deleted without any confirmation name. -/
theorem collection_delete_amended :
    ∀ (st : DBState) (collection_id validate : Option String)
      (collection : Collection),
      find_collection st collection_id = .ok collection →
      (((st.boards.filter (fun b => b.collectionId == collection.id)).length ≠ 0 →
          pyLower (validate.getD "") ≠ pyLower collection.key →
          CollectionDBManager.op_delete true st collection_id validate
            = .error (.badRequest,
                "Board Collection '" ++ collection.abbreviation ++ ": "
                  ++ collection.key
                  ++ "' still has boards.  You must provide the collection name to confirm deletion."))
        ∧ ((st.boards.filter (fun b => b.collectionId == collection.id)).length = 0 →
            CollectionDBManager.op_delete true st collection_id validate
              = .ok ({ st with collections := st.collections.map (fun c =>
                  if c.id == collection.id then { collection with deleted := true }
                  else c) },
                { collection with deleted := true }))) := by
  intro st collection_id validate collection hfc
  constructor
  · intro hcount hval
    unfold CollectionDBManager.op_delete
    rw [hfc]
    simp [hcount, hval]
  · intro hzero
    unfold CollectionDBManager.op_delete
    rw [hfc]
    simp [hzero]

/-- C4 witness scenario: a collection with zero board rows. -/
def c4StateEmpty : DBState :=
  { collections := [genCollection], boards := [], posts := [],
    nextPostRowId := 1 }

/-- Witness for C4 (amended): both branches exercised — a wrong
confirmation with one board row fails with BadRequest, and a collection
with zero board rows is soft-deleted without any confirmation name. -/
theorem collection_delete_amended_witness :
    CollectionDBManager.op_delete true c4StateLive (some "1") (some "")
      = .error (.badRequest,
          "Board Collection '" ++ genCollection.abbreviation ++ ": "
            ++ genCollection.key
            ++ "' still has boards.  You must provide the collection name to confirm deletion.")
    ∧ CollectionDBManager.op_delete true c4StateEmpty (some "1") none
      = .ok ({ c4StateEmpty with
               collections := c4StateEmpty.collections.map (fun c =>
                 if c.id == genCollection.id then
                   { genCollection with deleted := true }
                 else c) },
             { genCollection with deleted := true }) :=
  ⟨(collection_delete_amended c4StateLive (some "1") (some "") genCollection
      (by decide)).1 (by decide) (by decide),
   (collection_delete_amended c4StateEmpty (some "1") none genCollection
      (by decide)).2 (by decide)⟩

/-! ## C8: board admin inherits collection admin -/

/-- C8 witness environment: the actor satisfies the global override while
every entity-level lock — including the board's own admin lock — denies. -/
def c8Env : LockEnv Nat :=
  { collectionLock := fun _ _ _ => false
    boardLock := fun _ _ _ => false
    overridePass := fun _ => true }

/-- **C8.**  For every board, owning collection and actor: whenever the
collection's `admin` check succeeds, the board's `admin` check succeeds as
well — for every lock environment, in particular when the board's own
admin lock denies — because `DefaultBoard.access_check_admin` carries
`self.collection.access(accessing_obj, "admin")` as a disjunct. -/
theorem board_admin_inherits_collection_admin {A : Type} (env : LockEnv A)
    (b : Board) (c : Collection) (actor : A)
    (h : collectionAccessAdmin env c actor = true) :
    boardAccessAdmin env b c actor = true := by
  unfold boardAccessAdmin
  rw [h]
  simp

/-- Witness for C8: an actor passing the global override has collection
admin, hence board admin, while the board's own admin lock denies. -/
theorem board_admin_inherits_witness :
    collectionAccessAdmin c8Env genCollection 0 = true
      ∧ boardAccessAdmin c8Env (mkGenBoard 1) genCollection 0 = true
      ∧ c8Env.boardLock (mkGenBoard 1) "admin" 0 = false :=
  ⟨rfl,
   board_admin_inherits_collection_admin c8Env (mkGenBoard 1) genCollection 0 rfl,
   rfl⟩

/-! ## C9: fanout isolation -/

/-- If every delivery succeeds, the fanout loop delivers to exactly the
targets passing the per-target permission re-check: a target failing the
check is skipped without affecting the rest. -/
theorem fanoutLoop_all_ok (eligible : Nat → Bool)
    (deliver : Nat → Except Unit Unit) (hok : ∀ t, deliver t = .ok ()) :
    ∀ targets, fanoutLoop eligible deliver targets = (targets.filter eligible, true)
  | [] => rfl
  | t :: ts => by
    unfold fanoutLoop
    by_cases he : eligible t = true
    · simp [he, hok t, fanoutLoop_all_ok eligible deliver hok ts, List.filter_cons]
    · simp [he, fanoutLoop_all_ok eligible deliver hok ts, List.filter_cons]

/-- A delivery exception on an eligible target aborts the loop: every
earlier eligible target was delivered to, no later target is reached. -/
theorem fanoutLoop_abort (eligible : Nat → Bool)
    (deliver : Nat → Except Unit Unit) :
    ∀ ts1 (t : Nat) ts2, (∀ u ∈ ts1, deliver u = .ok ()) →
      eligible t = true → deliver t = .error () →
      fanoutLoop eligible deliver (ts1 ++ t :: ts2) = (ts1.filter eligible, false)
  | [], t, ts2, hpre, he, herr => by
    unfold fanoutLoop
    simp [he, herr]
  | u :: ts1, t, ts2, hpre, he, herr => by
    unfold fanoutLoop
    have hrec := fanoutLoop_abort eligible deliver ts1 t ts2
      (fun x hx => hpre x (List.mem_cons_of_mem u hx)) he herr
    by_cases hu : eligible u = true
    · simp [hu, hpre u (List.mem_cons_self u ts1), hrec, List.filter_cons]
    · simp [hu, hrec, List.filter_cons]

/-- A successful `op_reply` appends the reply to the post table (shared
helper for the reply-fanout part of the isolation claim). -/
theorem op_reply_ok_posts
    (access : Board → String → Bool) (st : DBState) (userId : Nat)
    (characterId : Option Nat) (board_id post_id body disguise : Option String)
    (now : Nat) (st2 : DBState) (reply : Post)
    (h : PostManager.op_reply access st userId characterId
        board_id post_id body disguise now = .ok (st2, reply)) :
    st2.posts = st.posts ++ [reply] := by
  unfold PostManager.op_reply at h
  rcases hfb : find_board st board_id with e | ⟨board, page0⟩ <;> rw [hfb] at h
  · simp at h
  · simp only [] at h
    split at h
    · simp at h
    · rcases hfp : find_post st board post_id with e | target <;> rw [hfp] at h
      · simp at h
      · simp only [] at h
        rcases hmx : maxReplyNumber st board target.number with _ | m <;>
          rw [hmx] at h <;> simp only [] at h
        all_goals
          repeat' split at h
        all_goals
          first
            | (simp only [Except.ok.injEq, Prod.mk.injEq] at h
               obtain ⟨h1, h2⟩ := h
               subst h1
               subst h2
               rfl)
            | simp at h

/-- C9 scenario state: an empty `GEN1` board. -/
def c9State : DBState :=
  { collections := [genCollection], boards := [mkGenBoard 1], posts := [],
    nextPostRowId := 1 }

/-- The post committed by the C9 create. -/
def c9Post : Post :=
  { id := 1, boardId := 1, userId := 7, characterId := none, disguise := none,
    number := 1, replyNumber := 0, subject := "Hi", body := "Body",
    dateCreated := 42, dateModified := 42, deleted := false, readBy := [7] }

/-- The state after the C9 create (committed before fanout). -/
def c9State2 : DBState :=
  { collections := [genCollection]
    boards := [{ mkGenBoard 1 with lastActivity := 42, nextPostNumber := 2 }]
    posts := [c9Post]
    nextPostRowId := 2 }

/-- The root post of the C9 reply scenario. -/
def c9ReplyRoot : Post :=
  { id := 1, boardId := 1, userId := 1, characterId := none, disguise := none,
    number := 1, replyNumber := 0, subject := "Hello", body := "World",
    dateCreated := 10, dateModified := 10, deleted := false, readBy := [1] }

/-- C9 reply scenario state: `GEN1` with one root post, counter at 2. -/
def c9ReplyState : DBState :=
  { collections := [genCollection], boards := [mkGenBoard 2],
    posts := [c9ReplyRoot], nextPostRowId := 2 }

/-- The reply committed by the C9 reply scenarios. -/
def c9Reply : Post :=
  { id := 2, boardId := 1, userId := 7, characterId := none, disguise := none,
    number := 1, replyNumber := 1, subject := "RE: Hello", body := "Body",
    dateCreated := 42, dateModified := 42, deleted := false, readBy := [7] }

/-- The state after the C9 reply (committed before fanout). -/
def c9ReplyState2 : DBState :=
  { collections := [genCollection]
    boards := [{ mkGenBoard 2 with lastActivity := 42 }]
    posts := [c9ReplyRoot, c9Reply]
    nextPostRowId := 3 }

/-- A delivery function whose `system_send` raises exactly on target 2. -/
def c9FailingDeliver : Nat → Except Unit Unit :=
  fun t => if t = 2 then .error () else .ok ()

/-- **C9 — counterexample.**  With connected targets `[1, 2, 3]`, all
eligible, and target 2's delivery raising: in the fanout after a post
create, and equally in the identical loop after a reply, target 1 is
delivered to, the loop aborts, and target 3 — eligible and connected —
receives nothing, against the claim that a single failing target never
prevents delivery to the remaining targets.  The committed post and reply
are still in the returned states. -/
theorem fanout_abort_counterexample :
    PostManager.op_create_fanout fullAccess c9State 7 none (some "GEN1")
        (some "Hi") (some "Body") none 42 [1, 2, 3] (fun _ => true)
        c9FailingDeliver
      = .ok (c9State2, c9Post, [1], false)
    ∧ PostManager.op_reply_fanout fullAccess c9ReplyState 7 none (some "GEN1")
        (some "1") (some "Body") none 42 [1, 2, 3] (fun _ => true)
        c9FailingDeliver
      = .ok (c9ReplyState2, c9Reply, [1], false)
    ∧ (3 : Nat) ∉ ([1] : List Nat)
    ∧ c9Post ∈ c9State2.posts
    ∧ c9Reply ∈ c9ReplyState2.posts :=
  ⟨rfl, rfl, by decide, by decide, by decide⟩

/-- **C9 (amended).**  During notification fanout after a successful post
create or reply, the committed post is never rolled back by any fanout
outcome; a target failing the per-target permission re-check is skipped
without preventing delivery to any other target (with no delivery
exception, exactly the eligible targets are delivered to); but an
exception while delivering to one eligible target aborts delivery to all
subsequent targets.  The two conjuncts cover the create fanout and the
identical reply fanout. -/
theorem fanout_isolation_amended :
    (∀ (access : Board → String → Bool) (st : DBState) (userId : Nat)
       (characterId : Option Nat) (board_id subject body disguise : Option String)
       (now : Nat) (targets : List Nat) (eligible : Nat → Bool)
       (deliver : Nat → Except Unit Unit) (st2 : DBState) (post : Post)
       (delivered : List Nat) (completed : Bool),
       PostManager.op_create_fanout access st userId characterId board_id
           subject body disguise now targets eligible deliver
         = .ok (st2, post, delivered, completed) →
       post ∈ st2.posts
         ∧ ((∀ t, deliver t = .ok ()) →
             delivered = targets.filter eligible ∧ completed = true)
         ∧ (∀ ts1 t ts2, targets = ts1 ++ t :: ts2 →
             (∀ u ∈ ts1, deliver u = .ok ()) →
             eligible t = true → deliver t = .error () →
             delivered = ts1.filter eligible ∧ completed = false))
    ∧ (∀ (access : Board → String → Bool) (st : DBState) (userId : Nat)
       (characterId : Option Nat) (board_id post_id body disguise : Option String)
       (now : Nat) (targets : List Nat) (eligible : Nat → Bool)
       (deliver : Nat → Except Unit Unit) (st2 : DBState) (reply : Post)
       (delivered : List Nat) (completed : Bool),
       PostManager.op_reply_fanout access st userId characterId board_id
           post_id body disguise now targets eligible deliver
         = .ok (st2, reply, delivered, completed) →
       reply ∈ st2.posts
         ∧ ((∀ t, deliver t = .ok ()) →
             delivered = targets.filter eligible ∧ completed = true)
         ∧ (∀ ts1 t ts2, targets = ts1 ++ t :: ts2 →
             (∀ u ∈ ts1, deliver u = .ok ()) →
             eligible t = true → deliver t = .error () →
             delivered = ts1.filter eligible ∧ completed = false)) := by
  constructor
  · intro access st userId characterId board_id subject body disguise now
      targets eligible deliver st2 post delivered completed h
    unfold PostManager.op_create_fanout at h
    rcases hc : PostManager.op_create access st userId characterId board_id
        subject body disguise now with e | ⟨st2a, posta⟩ <;> rw [hc] at h
    · simp at h
    · simp only [Except.ok.injEq, Prod.mk.injEq] at h
      obtain ⟨h1, h2, h3, h4⟩ := h
      subst h1
      subst h2
      refine ⟨?_, ?_, ?_⟩
      · obtain ⟨board, page, _, _, _, _, _, _, _, hposts, _, _⟩ :=
          op_create_ok_spec access st userId characterId board_id subject body
            disguise now st2a posta hc
        rw [hposts]
        simp
      · intro hok
        rw [← h3, ← h4, fanoutLoop_all_ok eligible deliver hok targets]
        exact ⟨rfl, rfl⟩
      · intro ts1 t ts2 htar hpre he herr
        rw [← h3, ← h4, htar,
          fanoutLoop_abort eligible deliver ts1 t ts2 hpre he herr]
        exact ⟨rfl, rfl⟩
  · intro access st userId characterId board_id post_id body disguise now
      targets eligible deliver st2 reply delivered completed h
    unfold PostManager.op_reply_fanout at h
    rcases hc : PostManager.op_reply access st userId characterId board_id
        post_id body disguise now with e | ⟨st2a, replya⟩ <;> rw [hc] at h
    · simp at h
    · simp only [Except.ok.injEq, Prod.mk.injEq] at h
      obtain ⟨h1, h2, h3, h4⟩ := h
      subst h1
      subst h2
      refine ⟨?_, ?_, ?_⟩
      · rw [op_reply_ok_posts access st userId characterId board_id post_id
          body disguise now st2a replya hc]
        simp
      · intro hok
        rw [← h3, ← h4, fanoutLoop_all_ok eligible deliver hok targets]
        exact ⟨rfl, rfl⟩
      · intro ts1 t ts2 htar hpre he herr
        rw [← h3, ← h4, htar,
          fanoutLoop_abort eligible deliver ts1 t ts2 hpre he herr]
        exact ⟨rfl, rfl⟩

/-- A delivery function that always succeeds. -/
def c9OkDeliver : Nat → Except Unit Unit := fun _ => .ok ()

/-- An eligibility check denying target 2 only. -/
def c9Eligible : Nat → Bool := fun t => t != 2

/-- Witness for C9 (amended): with targets `[1, 2, 3]`, target 2 failing
the permission re-check and no delivery exception, targets 1 and 3 are
delivered to — both in the fanout after a create and in the fanout after
a reply — and the committed post and reply are in the final states. -/
theorem fanout_isolation_amended_witness :
    (c9Post ∈ c9State2.posts
      ∧ (([1, 3] : List Nat) = [1, 2, 3].filter c9Eligible
          ∧ (true : Bool) = true))
    ∧ (c9Reply ∈ c9ReplyState2.posts
      ∧ (([1, 3] : List Nat) = [1, 2, 3].filter c9Eligible
          ∧ (true : Bool) = true)) :=
  have hc := fanout_isolation_amended.1 fullAccess c9State 7 none (some "GEN1")
    (some "Hi") (some "Body") none 42 [1, 2, 3] c9Eligible c9OkDeliver
    c9State2 c9Post [1, 3] true (by rfl)
  have hr := fanout_isolation_amended.2 fullAccess c9ReplyState 7 none
    (some "GEN1") (some "1") (some "Body") none 42 [1, 2, 3] c9Eligible
    c9OkDeliver c9ReplyState2 c9Reply [1, 3] true (by rfl)
  ⟨⟨hc.1, hc.2.1 (fun t => rfl)⟩, ⟨hr.1, hr.2.1 (fun t => rfl)⟩⟩
